import Mathlib

/-!
# Word-explaining game bot: the per-chat session of `controller/bot.go`

A shallow embedding of `handleMessage` and `handleCallbackQuery` of package
`controller`, acting on one `ChatState` (the value `chatStates[chatID]` points to
after the lookup-or-insert of lines 72-77 and 148-153).

* The embedded `sync.RWMutex` is a held/free flag.  One handler runs at a time, so
  acquiring a held lock never succeeds: the handler does not return (`none`).
* Calls into the collaborators that talk to the outside (`view.SendMessage`,
  `view.SendMessageWithButtons`, `bot.AnswerCallbackQuery`, `repository.InsertDoc`)
  are recorded, in order, in a list of `Call`s.
* The collaborators whose code is not part of the package are parameters (`Env`):
  the value pair returned by `model.GetRandomWord()`, the predicate
  `service.NormalizeAndCompare`, and the text of `service.LeaderBoardList()`.
  Every handler path calls `GetRandomWord` at most once, so one result per handler
  invocation suffices; `handleCallbackQueryTraced` counts the calls made.
* `log.Printf` / `fmt.Printf` only write to the process log and are not recorded.
-/

namespace Controller

/-- ChatState of `bot.go` (lines 17-21): the current word and the user explaining it,
with the embedded mutex as the flag `held`. -/
structure ChatState where
  held : Bool
  Word : String
  User : String
deriving DecidableEq, Repr

namespace ChatState

/-- Zero value `&ChatState{}` stored for a chat on first reference (lines 74, 150). -/
def fresh : ChatState := { held := false, Word := "", User := "" }

/-- Mutex acquisition `chatState.Lock()`: succeeds only on a free lock. -/
def Lock (s : ChatState) : Option ChatState :=
  if s.held then none else some { s with held := true }

/-- Mutex release `chatState.Unlock()`. -/
def Unlock (s : ChatState) : ChatState := { s with held := false }

/-- Read acquisition `chatState.RLock()`: waits for a writer exactly as `Lock` does. -/
def RLock (s : ChatState) : Option ChatState :=
  if s.held then none else some { s with held := true }

/-- Read release `chatState.RUnlock()`. -/
def RUnlock (s : ChatState) : ChatState := { s with held := false }

end ChatState

/-- Phases of the specification's data model. -/
inductive Phase where
  | Idle
  | Ready
  | Explaining
deriving DecidableEq, Repr

/-- Phase of a chat state, read off the two fields the way the specification's data
model relates them: an explainer is present exactly in `Explaining`, a word is
present exactly outside `Idle`.  The code itself stores no phase. -/
def ChatState.phase (s : ChatState) : Phase :=
  if s.User ≠ "" then Phase.Explaining
  else if s.Word ≠ "" then Phase.Ready
  else Phase.Idle

/-- Result pair of `model.GetRandomWord()`: the string and whether `err != nil`. -/
structure Draw where
  word : String
  err : Bool
deriving DecidableEq, Repr

/-- Collaborators outside the package, as seen during one handler invocation. -/
structure Env where
  GetRandomWord : Draw
  NormalizeAndCompare : String → String → Bool
  LeaderBoardList : String

/-- Fields of `tgbotapi.Message` read by `handleMessage`; `Command` is the value of
the library method `message.Command()`. -/
structure Message where
  ChatID : Int
  FromID : Int
  FromUserName : String
  FromFirstName : String
  Text : String
  Command : String
deriving DecidableEq, Repr

/-- Fields of `tgbotapi.CallbackQuery` read by `handleCallbackQuery`. -/
structure CallbackQuery where
  ID : String
  FromUserName : String
  Data : String
  MessageText : String
  ChatID : Int
deriving DecidableEq, Repr

/-- An inline keyboard: rows of buttons, each a (label, callback data) pair. -/
abbrev Keyboard := List (List (String × String))

/-- Outbound calls made by the handlers. `AnswerCallbackQuery id text alert` stands for
`bot.AnswerCallbackQuery` of `NewCallbackWithAlert(id, text)` when `alert` is true and of
`NewCallback(id, text)` otherwise. -/
inductive Call where
  | SendMessage (chatID : Int) (text : String)
  | SendMessageWithButtons (chatID : Int) (text : String) (buttons : Keyboard)
  | AnswerCallbackQuery (callbackID : String) (text : String) (alert : Bool)
  | InsertDoc (userID : Int) (firstName : String) (chatID : Int)
deriving DecidableEq, Repr

/-- What a handler that returns leaves behind: the chat state and the calls it made. -/
structure Outcome where
  state : ChatState
  calls : List Call
deriving DecidableEq, Repr

/-- Keyboard built at lines 99-104. -/
def explainButtons : Keyboard := [[(" 🗣️ Explain ", "explain")]]

/-- Keyboard built at lines 125-130. -/
def claimButtons : Keyboard := [[("🌟 Claim Leadership 🙋", "explain")]]

/-- Keyboard built at lines 172-185. -/
def leaderButtons : Keyboard :=
  [[("See word 👀", "explain")], [("Next ⏭️", "next")], [("Changed my mind ❌", "droplead")]]

/-- The function `handleMessage` (lines 68-141) on the chat state of the message's chat. -/
def handleMessage (env : Env) (message : Message) (chatState : ChatState) : Option Outcome :=
  if message.Command = "start" then
    some ⟨chatState, [Call.SendMessage message.ChatID "Welcome! Use /word to start a game."]⟩
  else if message.Command = "stats" then
    some ⟨chatState, [Call.SendMessage message.ChatID env.LeaderBoardList]⟩
  else if message.Command = "word" then
    if env.GetRandomWord.err then
      some ⟨chatState, [Call.SendMessage message.ChatID "Failed to fetch a word."]⟩
    else
      match chatState.Lock with
      | none => none
      | some st =>
        some ⟨({ st with Word := env.GetRandomWord.word, User := "" } : ChatState).Unlock,
          [Call.SendMessageWithButtons message.ChatID
            "The word is ready! Click \x27Explain\x27 to explain the word." explainButtons]⟩
  else
    match chatState.RLock with
    | none => none
    | some st =>
      let word := st.Word
      let user := st.User
      let st := st.RUnlock
      if user ≠ "" ∧ env.NormalizeAndCompare message.Text word = true then
        match st.Lock with
        | none => none
        | some st =>
          some ⟨({ st with Word := "", User := "" } : ChatState).Unlock,
            [Call.InsertDoc message.FromID message.FromFirstName message.ChatID,
             Call.SendMessageWithButtons message.ChatID
              ("Congratulations! " ++ message.FromFirstName ++
                " guessed the word correctly.\n /word") claimButtons]⟩
      else
        some ⟨st, []⟩

/-- The function `handleCallbackQuery` (lines 144-247) on the chat state of the
callback's chat. Next to the outcome it reports how many times the path taken
called `model.GetRandomWord()` (lines 167 and 208). -/
def handleCallbackQueryTraced (env : Env) (callback : CallbackQuery) (chatState : ChatState) :
    Option (Outcome × Nat) :=
  if callback.Data = "explain" then
    match chatState.Lock with
    | none => none
    | some st =>
      if st.User ≠ callback.FromUserName ∧ st.User ≠ "" then
        some (⟨st.Unlock,
          [Call.AnswerCallbackQuery callback.ID
            (st.User ++ " is already explaining the word. " ++ callback.FromUserName) true]⟩, 0)
      else if st.User = "" then
        if env.GetRandomWord.err then
          -- line 169: returns while still holding the lock, nothing sent
          some (⟨st, []⟩, 1)
        else
          let st : ChatState := { st with Word := env.GetRandomWord.word }
          let st : ChatState := ({ st with User := callback.FromUserName } : ChatState).Unlock
          some (⟨st,
            [Call.SendMessageWithButtons callback.ChatID
              ("@" ++ callback.FromUserName ++ " is explaining the word:") leaderButtons,
             Call.AnswerCallbackQuery callback.ID st.Word true,
             Call.AnswerCallbackQuery callback.ID "" false]⟩, 1)
      else
        let st : ChatState := ({ st with User := callback.FromUserName } : ChatState).Unlock
        some (⟨st,
          [Call.AnswerCallbackQuery callback.ID st.Word true,
           Call.AnswerCallbackQuery callback.ID "" false]⟩, 0)
  else if callback.Data = "next" then
    match chatState.Lock with
    | none => none
    | some st =>
      if st.User ≠ callback.FromUserName ∧ st.User ≠ "" then
        some (⟨st.Unlock,
          [Call.AnswerCallbackQuery callback.ID
            (st.User ++ " is already explaining the word. " ++ callback.FromUserName) true]⟩, 0)
      else
        let st : ChatState := ({ st with User := callback.FromUserName } : ChatState).Unlock
        -- line 208: the word is assigned after the unlock, the error is discarded
        let st : ChatState := { st with Word := env.GetRandomWord.word }
        some (⟨st,
          [Call.AnswerCallbackQuery callback.ID st.Word true,
           Call.AnswerCallbackQuery callback.ID "" false]⟩, 1)
  else if callback.Data = "droplead" then
    match chatState.Lock with
    | none => none
    | some st =>
      if st.User ≠ callback.FromUserName then
        some (⟨st.Unlock,
          [Call.AnswerCallbackQuery callback.ID
            "You are not the leader, so you cannot drop the lead!" true]⟩, 0)
      else
        some (⟨({ st with Word := "", User := "" } : ChatState).Unlock,
          [Call.SendMessage callback.ChatID
            (callback.FromUserName ++ " refused to lead -> " ++ st.Word ++ " \n /word"),
           Call.AnswerCallbackQuery callback.ID "" false]⟩, 0)
  else
    match chatState.RLock with
    | none => none
    | some st =>
      let word := st.Word
      let st := st.RUnlock
      if env.NormalizeAndCompare callback.MessageText word = true then
        match st.Lock with
        | none => none
        | some st =>
          some (⟨({ st with Word := "", User := "" } : ChatState).Unlock,
            [Call.SendMessage callback.ChatID
              ("Congratulations! " ++ callback.FromUserName ++ " guessed the word correctly."),
             Call.AnswerCallbackQuery callback.ID "" false]⟩, 0)
      else
        some (⟨st, [Call.AnswerCallbackQuery callback.ID "" false]⟩, 0)

/-- The function `handleCallbackQuery` (lines 144-247): the chat state it leaves and the
outbound calls it makes, that is `handleCallbackQueryTraced` without the count. -/
def handleCallbackQuery (env : Env) (callback : CallbackQuery) (chatState : ChatState) :
    Option Outcome :=
  (handleCallbackQueryTraced env callback chatState).map Prod.fst

/-- The two pointer fields of `tgbotapi.Update` that the loop of `StartBot` inspects. -/
structure Update where
  Message : Option Message
  CallbackQuery : Option CallbackQuery
deriving DecidableEq, Repr

/-- Body of the update loop of `StartBot` (lines 54-61) for the chat the update addresses. -/
def handleUpdate (env : Env) (update : Update) (chatState : ChatState) : Option Outcome :=
  match update.Message with
  | some message => handleMessage env message chatState
  | none =>
    match update.CallbackQuery with
    | some callback => handleCallbackQuery env callback chatState
    | none => some ⟨chatState, []⟩

/-- Updates of one chat handled one after the other, each with the collaborators'
answers it meets; `none` when some handler never returns. -/
def runUpdates : List (Env × Update) → ChatState → Option ChatState
  | [], s => some s
  | (env, update) :: rest, s =>
    match handleUpdate env update s with
    | none => none
    | some out => runUpdates rest out.state

/-- Whether a call is an acknowledgement of an interactive action. -/
def Call.isAck : Call → Bool
  | Call.AnswerCallbackQuery _ _ _ => true
  | _ => false

/-- Whether a call posts into the chat room. -/
def Call.isRoomMessage : Call → Bool
  | Call.SendMessage _ _ => true
  | Call.SendMessageWithButtons _ _ _ => true
  | _ => false

/-- Whether a call records a score (the ScoreEvent handed to persistence). -/
def Call.isScore : Call → Bool
  | Call.InsertDoc _ _ _ => true
  | _ => false

/-- The acknowledgements among the calls, in order. -/
def acknowledgements (calls : List Call) : List Call := calls.filter Call.isAck

/-- The room-visible messages among the calls, in order. -/
def roomMessages (calls : List Call) : List Call := calls.filter Call.isRoomMessage

/-- The score records among the calls, in order. -/
def scoreEvents (calls : List Call) : List Call := calls.filter Call.isScore

/-- Successful result `(w, nil)` of the word supply. -/
def drawn (w : String) : Draw := { word := w, err := false }

/-- Failed result `(w, err)` of the word supply, `err != nil`. -/
def failedWith (w : String) : Draw := { word := w, err := true }

/-- Failed result in the idiomatic shape `("", err)`. -/
def drawFailed : Draw := failedWith ""

/-- Environment whose matcher is string equality. -/
def envWith (d : Draw) : Env :=
  { GetRandomWord := d, NormalizeAndCompare := fun a b => a == b, LeaderBoardList := "" }

/-- The data-model invariant on the two fields: an explainer implies a word. -/
def ChatState.wordSetIfUserSet (s : ChatState) : Prop := s.User ≠ "" → s.Word ≠ ""

/-! ## Basic facts about the lock and the phase -/

theorem ChatState.Lock_of_free (s : ChatState) (h : s.held = false) :
    s.Lock = some { s with held := true } := by
  simp [ChatState.Lock, h]

theorem ChatState.RLock_of_free (s : ChatState) (h : s.held = false) :
    s.RLock = some { s with held := true } := by
  simp [ChatState.RLock, h]

theorem ChatState.user_empty_of_phase (s : ChatState)
    (h : s.phase = Phase.Idle ∨ s.phase = Phase.Ready) : s.User = "" := by
  by_contra hne
  simp [ChatState.phase, hne] at h

theorem ChatState.phase_explaining_iff (s : ChatState) :
    s.phase = Phase.Explaining ↔ s.User ≠ "" := by
  unfold ChatState.phase
  by_cases h : s.User = ""
  · by_cases hw : s.Word = "" <;> simp [h, hw]
  · simp [h]

/-! ## The "explain" action -/

/-- C2: the "explain" action on a session that has an explainer (phase Explaining) leaves
the session as it was and makes no call of the word supply, whatever the supply would
answer. A participant other than the explainer is answered with the alert
"<explainer> is already explaining the word. <caller>", the explainer is answered with
the current word. -/
theorem explain_while_explaining (env env' : Env) (callback : CallbackQuery) (s : ChatState)
    (hdata : callback.Data = "explain") (hfree : s.held = false)
    (hphase : s.phase = Phase.Explaining) :
    handleCallbackQueryTraced env callback s = handleCallbackQueryTraced env' callback s ∧
    (s.User ≠ callback.FromUserName →
      handleCallbackQueryTraced env callback s =
        some (⟨s, [Call.AnswerCallbackQuery callback.ID
          (s.User ++ " is already explaining the word. " ++ callback.FromUserName) true]⟩,
          0)) ∧
    (s.User = callback.FromUserName →
      handleCallbackQueryTraced env callback s =
        some (⟨s, [Call.AnswerCallbackQuery callback.ID s.Word true,
          Call.AnswerCallbackQuery callback.ID "" false]⟩, 0)) := by
  have huser : s.User ≠ "" := (ChatState.phase_explaining_iff s).1 hphase
  obtain ⟨held, word, user⟩ := s
  simp only at hfree huser
  subst hfree
  by_cases hc : user = callback.FromUserName
  · have hne : ¬ callback.FromUserName = "" := hc ▸ huser
    simp [handleCallbackQueryTraced, hdata, ChatState.Lock, ChatState.Unlock, hc, hne]
  · simp [handleCallbackQueryTraced, hdata, ChatState.Lock, ChatState.Unlock, hc, huser]

/-- Instances of C2 while alice explains "cat": bob presses "explain" and is refused,
alice presses "explain" and is shown "cat" again; neither run calls the word supply. -/
theorem explain_while_explaining_witness :
    handleCallbackQueryTraced (envWith (drawn "dog")) ⟨"q", "bob", "explain", "", 7⟩
        ⟨false, "cat", "alice"⟩ =
      some (⟨⟨false, "cat", "alice"⟩,
        [Call.AnswerCallbackQuery "q"
          ("alice" ++ " is already explaining the word. " ++ "bob") true]⟩, 0) ∧
    handleCallbackQueryTraced (envWith (drawn "dog")) ⟨"r", "alice", "explain", "", 7⟩
        ⟨false, "cat", "alice"⟩ =
      some (⟨⟨false, "cat", "alice"⟩,
        [Call.AnswerCallbackQuery "r" "cat" true, Call.AnswerCallbackQuery "r" "" false]⟩,
        0) :=
  ⟨(explain_while_explaining (envWith (drawn "dog")) (envWith drawFailed)
      ⟨"q", "bob", "explain", "", 7⟩ ⟨false, "cat", "alice"⟩ rfl rfl (by decide)).2.1
      (by decide),
   (explain_while_explaining (envWith (drawn "dog")) (envWith drawFailed)
      ⟨"r", "alice", "explain", "", 7⟩ ⟨false, "cat", "alice"⟩ rfl rfl (by decide)).2.2
      rfl⟩

/-- C3, as stated, fails for a participant without a user name: a successful "explain"
on the fresh session announces "@ is explaining the word:" and stores the drawn word,
but the explainer field stays empty, so the phase is Ready instead of Explaining and
the following "explain" by bob is granted with a new word instead of being refused. -/
theorem explain_by_unnamed_participant :
    handleCallbackQuery (envWith (drawn "cat")) ⟨"q", "", "explain", "", 7⟩ ChatState.fresh =
      some ⟨⟨false, "cat", ""⟩,
        [Call.SendMessageWithButtons 7 "@ is explaining the word:" leaderButtons,
         Call.AnswerCallbackQuery "q" "cat" true, Call.AnswerCallbackQuery "q" "" false]⟩ ∧
    ChatState.fresh.phase = Phase.Idle ∧
    (⟨false, "cat", ""⟩ : ChatState).phase = Phase.Ready ∧
    handleCallbackQuery (envWith (drawn "dog")) ⟨"r", "bob", "explain", "", 7⟩
        ⟨false, "cat", ""⟩ =
      some ⟨⟨false, "dog", "bob"⟩,
        [Call.SendMessageWithButtons 7 "@bob is explaining the word:" leaderButtons,
         Call.AnswerCallbackQuery "r" "dog" true, Call.AnswerCallbackQuery "r" "" false]⟩ := by
  decide

/-- Support for C3: on a session in phase Idle or Ready, a successful draw makes "explain"
call the word supply once, store the drawn word in place of the previous one, store
the participant's user name as explainer, announce the explainer to the room and
answer the caller with the drawn word; the resulting phase is Explaining exactly when
that user name is non-empty. -/
theorem explain_without_explainer (env : Env) (callback : CallbackQuery) (s : ChatState)
    (hdata : callback.Data = "explain") (hfree : s.held = false)
    (hphase : s.phase = Phase.Idle ∨ s.phase = Phase.Ready)
    (hok : env.GetRandomWord.err = false) :
    handleCallbackQueryTraced env callback s =
      some (⟨⟨false, env.GetRandomWord.word, callback.FromUserName⟩,
        [Call.SendMessageWithButtons callback.ChatID
          ("@" ++ callback.FromUserName ++ " is explaining the word:") leaderButtons,
         Call.AnswerCallbackQuery callback.ID env.GetRandomWord.word true,
         Call.AnswerCallbackQuery callback.ID "" false]⟩, 1) ∧
    ((⟨false, env.GetRandomWord.word, callback.FromUserName⟩ : ChatState).phase =
        Phase.Explaining ↔ callback.FromUserName ≠ "") := by
  have huser : s.User = "" := ChatState.user_empty_of_phase s hphase
  obtain ⟨held, word, user⟩ := s
  simp only at hfree huser
  subst hfree huser
  refine ⟨?_, ChatState.phase_explaining_iff _⟩
  simp [handleCallbackQueryTraced, hdata, ChatState.Lock, ChatState.Unlock, hok]

/-! ## The "next" action -/

/-- C7, as stated, fails for "next", which ignores the failure of the draw: whatever
string the failed call returns, "next" on a Ready session holding "cat" stores that
string as the word and bob as the explainer. The "word" command and the "explain"
action check the error; line 208 discards it. -/
theorem next_failed_draw_changes_session (w : String) (matcher : String → String → Bool) :
    handleCallbackQuery ⟨failedWith w, matcher, ""⟩ ⟨"q", "bob", "next", "", 7⟩
        ⟨false, "cat", ""⟩ =
      some ⟨⟨false, w, "bob"⟩,
        [Call.AnswerCallbackQuery "q" w true, Call.AnswerCallbackQuery "q" "" false]⟩ ∧
    (⟨false, w, "bob"⟩ : ChatState).User ≠ (⟨false, "cat", ""⟩ : ChatState).User := by
  constructor
  · simp [handleCallbackQuery, handleCallbackQueryTraced, ChatState.Lock, ChatState.Unlock, failedWith]
  · show "bob" ≠ ""
    decide

/-- C1, as stated, fails after one "next" whose draw fails with the result ("", err):
from the fresh session the explainer becomes "alice" while the word stays empty. -/
theorem next_failed_draw_breaks_invariant :
    runUpdates [(envWith drawFailed, ⟨none, some ⟨"q", "alice", "next", "", 7⟩⟩)]
        ChatState.fresh = some ⟨false, "", "alice"⟩ ∧
    ¬ (⟨false, "", "alice"⟩ : ChatState).wordSetIfUserSet := by
  constructor
  · decide
  · simp [ChatState.wordSetIfUserSet]

/-! ## The "droplead" action -/

/-- C5, as stated, fails for a participant without a user name on a session without an
explainer: "droplead" on a Ready session holding "cat" publishes the word to the room
and clears it instead of answering with the not-the-leader alert. -/
theorem droplead_unnamed_on_ready_session :
    handleCallbackQuery (envWith (drawn "dog")) ⟨"q", "", "droplead", "", 7⟩
        ⟨false, "cat", ""⟩ =
      some ⟨⟨false, "", ""⟩,
        [Call.SendMessage 7 " refused to lead -> cat \n /word",
         Call.AnswerCallbackQuery "q" "" false]⟩ ∧
    (⟨false, "cat", ""⟩ : ChatState).phase = Phase.Ready := by
  decide

/-- Support for C5: for a participant with a non-empty user name "droplead" behaves as
specified. It succeeds exactly when the participant is the explainer, then announces
the abandoned word and clears both fields; otherwise the caller gets the
not-the-leader alert and the session is unchanged. -/
theorem droplead_named_participant (env : Env) (callback : CallbackQuery) (s : ChatState)
    (hdata : callback.Data = "droplead") (hfree : s.held = false)
    (hname : callback.FromUserName ≠ "") :
    (s.phase = Phase.Explaining ∧ s.User = callback.FromUserName →
      handleCallbackQuery env callback s =
        some ⟨ChatState.fresh,
          [Call.SendMessage callback.ChatID
            (callback.FromUserName ++ " refused to lead -> " ++ s.Word ++ " \n /word"),
           Call.AnswerCallbackQuery callback.ID "" false]⟩) ∧
    (¬ (s.phase = Phase.Explaining ∧ s.User = callback.FromUserName) →
      handleCallbackQuery env callback s =
        some ⟨s, [Call.AnswerCallbackQuery callback.ID
          "You are not the leader, so you cannot drop the lead!" true]⟩) := by
  have hne1 : callback.Data ≠ "explain" := by rw [hdata]; decide
  have hne2 : callback.Data ≠ "next" := by rw [hdata]; decide
  obtain ⟨held, word, user⟩ := s
  simp only at hfree
  subst hfree
  constructor
  · rintro ⟨_, h⟩
    simp only at h
    subst h
    simp [handleCallbackQuery, handleCallbackQueryTraced, hdata, ChatState.Lock, ChatState.Unlock, ChatState.fresh]
  · intro h
    have hu : user ≠ callback.FromUserName := by
      intro hu
      apply h
      refine ⟨(ChatState.phase_explaining_iff _).2 ?_, hu⟩
      simpa [hu] using hname
    simp [handleCallbackQuery, handleCallbackQueryTraced, hdata, ChatState.Lock, ChatState.Unlock, hu]

/-! ## Guesses -/

/-- C6, as stated, fails on the guess path of unrecognised interactive actions: with
alice explaining "cat" and a matcher that accepts, the session is reset and the room is
congratulated, but no score is recorded. -/
theorem callback_guess_records_no_score :
    handleCallbackQuery (envWith (drawn "dog")) ⟨"q", "bob", "guess", "cat", 7⟩
        ⟨false, "cat", "alice"⟩ =
      some ⟨ChatState.fresh,
        [Call.SendMessage 7 "Congratulations! bob guessed the word correctly.",
         Call.AnswerCallbackQuery "q" "" false]⟩ ∧
    (envWith (drawn "dog")).NormalizeAndCompare "cat" "cat" = true ∧
    scoreEvents [Call.SendMessage 7 "Congratulations! bob guessed the word correctly.",
         Call.AnswerCallbackQuery "q" "" false] = [] := by
  decide

/-- Support for C6: on the free-text path a rejected text leaves the session unchanged
with no call at all, and an accepted text during phase Explaining resets the session
and records exactly one score, for the sender of the message. -/
theorem message_guess (env : Env) (message : Message) (s : ChatState)
    (hstart : message.Command ≠ "start") (hstats : message.Command ≠ "stats")
    (hword : message.Command ≠ "word") (hfree : s.held = false) :
    (env.NormalizeAndCompare message.Text s.Word = false →
      handleMessage env message s = some ⟨s, []⟩) ∧
    (s.phase = Phase.Explaining → env.NormalizeAndCompare message.Text s.Word = true →
      ∃ out, handleMessage env message s = some out ∧ out.state = ChatState.fresh ∧
        scoreEvents out.calls =
          [Call.InsertDoc message.FromID message.FromFirstName message.ChatID]) := by
  obtain ⟨held, word, user⟩ := s
  simp only at hfree
  subst hfree
  constructor
  · intro h
    simp only at h
    simp [handleMessage, hstart, hstats, hword, ChatState.RLock, ChatState.RUnlock, h]
  · intro hp h
    have hu : user ≠ "" := (ChatState.phase_explaining_iff _).1 hp
    simp only at h
    simp [handleMessage, hstart, hstats, hword, ChatState.RLock, ChatState.RUnlock,
      ChatState.Lock, ChatState.Unlock, ChatState.fresh, h, hu, scoreEvents, Call.isScore]

/-- Support for C6: on the interactive path a rejected text leaves the session
unchanged and only the acknowledgement is sent. -/
theorem callback_guess_rejected (env : Env) (callback : CallbackQuery) (s : ChatState)
    (h1 : callback.Data ≠ "explain") (h2 : callback.Data ≠ "next")
    (h3 : callback.Data ≠ "droplead") (hfree : s.held = false)
    (hrej : env.NormalizeAndCompare callback.MessageText s.Word = false) :
    handleCallbackQuery env callback s =
      some ⟨s, [Call.AnswerCallbackQuery callback.ID "" false]⟩ := by
  obtain ⟨held, word, user⟩ := s
  simp only at hfree hrej
  subst hfree
  simp [handleCallbackQuery, handleCallbackQueryTraced, h1, h2, h3, ChatState.RLock, ChatState.RUnlock, hrej]

/-! ## Failure of the word supply -/

/-- Support for C7: a failed draw leaves the session untouched in the "word" command. -/
theorem word_failed_draw (env : Env) (message : Message) (s : ChatState)
    (hcmd : message.Command = "word") (herr : env.GetRandomWord.err = true) :
    handleMessage env message s =
      some ⟨s, [Call.SendMessage message.ChatID "Failed to fetch a word."]⟩ := by
  have h1 : message.Command ≠ "start" := by rw [hcmd]; decide
  have h2 : message.Command ≠ "stats" := by rw [hcmd]; decide
  simp [handleMessage, h1, h2, hcmd, herr]

/-- Support for C7: a failed draw leaves word and explainer untouched in the "explain"
action. -/
theorem explain_keeps_fields_on_failed_draw (env : Env) (callback : CallbackQuery) (s : ChatState)
    (hdata : callback.Data = "explain") (hfree : s.held = false)
    (herr : env.GetRandomWord.err = true) :
    ∃ out, handleCallbackQuery env callback s = some out ∧
      out.state.Word = s.Word ∧ out.state.User = s.User := by
  obtain ⟨held, word, user⟩ := s
  simp only at hfree
  subst hfree
  by_cases hc : user = callback.FromUserName
  · by_cases hu : callback.FromUserName = ""
    · simp [handleCallbackQuery, handleCallbackQueryTraced, hdata, ChatState.Lock, ChatState.Unlock, hc, hu, herr]
    · simp [handleCallbackQuery, handleCallbackQueryTraced, hdata, ChatState.Lock, ChatState.Unlock, hc, hu]
  · by_cases hu : user = ""
    · simp [handleCallbackQuery, handleCallbackQueryTraced, hdata, ChatState.Lock, ChatState.Unlock, hu, herr]
    · simp [handleCallbackQuery, handleCallbackQueryTraced, hdata, ChatState.Lock, ChatState.Unlock, hc, hu]

/-! ## The session lock -/

/-- C8, as stated, fails for "explain" on a session without explainer when the draw
fails: the handler returns at line 169 with the lock still held, and the next handler
that needs the lock (here the same action again, with a working supply) never
returns. -/
theorem explain_failed_draw_keeps_lock :
    handleCallbackQuery (envWith drawFailed) ⟨"q", "alice", "explain", "", 7⟩ ChatState.fresh =
      some ⟨⟨true, "", ""⟩, []⟩ ∧
    handleCallbackQuery (envWith (drawn "cat")) ⟨"r", "alice", "explain", "", 7⟩
      ⟨true, "", ""⟩ = none := by
  decide

/-- Support for C8: every other path releases the lock. `handleMessage` always returns
with the lock free, and `handleCallbackQuery` does unless it is the "explain" action on
a session without explainer whose draw fails. -/
theorem lock_released (env : Env) (s : ChatState) (hfree : s.held = false) :
    (∀ message, ∃ out, handleMessage env message s = some out ∧ out.state.held = false) ∧
    (∀ callback,
      ¬ (callback.Data = "explain" ∧ s.User = "" ∧ env.GetRandomWord.err = true) →
      ∃ out, handleCallbackQuery env callback s = some out ∧ out.state.held = false) := by
  obtain ⟨held, word, user⟩ := s
  simp only at hfree
  subst hfree
  constructor
  · intro message
    simp only [handleMessage, ChatState.Lock, ChatState.RLock, ChatState.Unlock,
      ChatState.RUnlock, Bool.false_eq_true, if_false]
    split_ifs <;> simp
  · intro callback hnot
    simp only at hnot
    simp only [handleCallbackQuery, handleCallbackQueryTraced, ChatState.Lock, ChatState.RLock, ChatState.Unlock,
      ChatState.RUnlock, Bool.false_eq_true, if_false]
    split_ifs <;> simp_all

/-! ## Acknowledgement of interactive actions -/

/-- C9, as stated, fails for a successful "explain": the caller is answered twice, first
with the alert carrying the word (line 193) and then with the empty acknowledgement
(line 246). -/
theorem explain_acknowledged_twice :
    handleCallbackQuery (envWith (drawn "cat")) ⟨"q", "alice", "explain", "", 7⟩
        ChatState.fresh =
      some ⟨⟨false, "cat", "alice"⟩,
        [Call.SendMessageWithButtons 7 "@alice is explaining the word:" leaderButtons,
         Call.AnswerCallbackQuery "q" "cat" true, Call.AnswerCallbackQuery "q" "" false]⟩ ∧
    acknowledgements
      [Call.SendMessageWithButtons 7 "@alice is explaining the word:" leaderButtons,
       Call.AnswerCallbackQuery "q" "cat" true, Call.AnswerCallbackQuery "q" "" false] =
      [Call.AnswerCallbackQuery "q" "cat" true, Call.AnswerCallbackQuery "q" "" false] := by
  decide

/-- C9 (amended): unless the action is "explain" on a session without explainer and the
draw fails, `handleCallbackQuery` returns and every acknowledgement it sends carries
the callback's ID and comes after all its other calls. A granted "explain" or "next"
(the caller is the explainer or no explainer is set) is answered twice: first the alert
whose text is the session's word after the operation, then the empty acknowledgement;
that word is the current word when the explainer presses "explain" and otherwise the
word of a successful draw. Every other case is answered once: a refused "explain" or
"next" with the alert "<explainer> is already explaining the word. <caller>", a refused
"droplead" with the not-the-leader alert, a granted "droplead" and any other data with
the empty acknowledgement. -/
theorem callback_acknowledgements (env : Env) (callback : CallbackQuery) (s : ChatState)
    (hfree : s.held = false)
    (hnot : ¬ (callback.Data = "explain" ∧ s.User = "" ∧ env.GetRandomWord.err = true)) :
    ∃ out, handleCallbackQuery env callback s = some out ∧
      out.calls = out.calls.filter (fun c => !c.isAck) ++ acknowledgements out.calls ∧
      acknowledgements out.calls =
        (if callback.Data = "explain" ∨ callback.Data = "next" then
          if s.User ≠ callback.FromUserName ∧ s.User ≠ "" then
            [Call.AnswerCallbackQuery callback.ID
              (s.User ++ " is already explaining the word. " ++ callback.FromUserName) true]
          else
            [Call.AnswerCallbackQuery callback.ID out.state.Word true,
             Call.AnswerCallbackQuery callback.ID "" false]
        else if callback.Data = "droplead" ∧ s.User ≠ callback.FromUserName then
          [Call.AnswerCallbackQuery callback.ID
            "You are not the leader, so you cannot drop the lead!" true]
        else
          [Call.AnswerCallbackQuery callback.ID "" false]) ∧
      ((callback.Data = "explain" ∨ callback.Data = "next") →
        (s.User = callback.FromUserName ∨ s.User = "") →
        (callback.Data = "explain" ∧ s.User ≠ "" → out.state.Word = s.Word) ∧
        (¬ (callback.Data = "explain" ∧ s.User ≠ "") → env.GetRandomWord.err = false →
          out.state.Word = env.GetRandomWord.word)) := by
  obtain ⟨held, word, user⟩ := s
  simp only at hfree hnot
  subst hfree
  by_cases h1 : callback.Data = "explain"
  · by_cases hc : user = callback.FromUserName
    · by_cases hu : callback.FromUserName = ""
      · have herr : env.GetRandomWord.err = false := by
          cases hq : env.GetRandomWord.err
          · rfl
          · exact absurd ⟨h1, hc.trans hu, hq⟩ hnot
        simp [handleCallbackQuery, handleCallbackQueryTraced, h1, ChatState.Lock,
          ChatState.Unlock, hc, hu, herr, acknowledgements, Call.isAck]
      · simp [handleCallbackQuery, handleCallbackQueryTraced, h1, ChatState.Lock,
          ChatState.Unlock, hc, hu, acknowledgements, Call.isAck]
    · by_cases hu : user = ""
      · have herr : env.GetRandomWord.err = false := by
          cases hq : env.GetRandomWord.err
          · rfl
          · exact absurd ⟨h1, hu, hq⟩ hnot
        simp [handleCallbackQuery, handleCallbackQueryTraced, h1, ChatState.Lock,
          ChatState.Unlock, hu, herr, acknowledgements, Call.isAck]
      · simp [handleCallbackQuery, handleCallbackQueryTraced, h1, ChatState.Lock,
          ChatState.Unlock, hc, hu, acknowledgements, Call.isAck]
  · by_cases h2 : callback.Data = "next"
    · by_cases hc : user = callback.FromUserName
      · simp [handleCallbackQuery, handleCallbackQueryTraced, h1, h2, ChatState.Lock,
          ChatState.Unlock, hc, acknowledgements, Call.isAck]
      · by_cases hu : user = ""
        · simp [handleCallbackQuery, handleCallbackQueryTraced, h1, h2, ChatState.Lock,
            ChatState.Unlock, hu, acknowledgements, Call.isAck]
        · simp [handleCallbackQuery, handleCallbackQueryTraced, h1, h2, ChatState.Lock,
            ChatState.Unlock, hc, hu, acknowledgements, Call.isAck]
    · by_cases h3 : callback.Data = "droplead"
      · by_cases hc : user = callback.FromUserName
        · simp [handleCallbackQuery, handleCallbackQueryTraced, h1, h2, h3, ChatState.Lock,
            ChatState.Unlock, hc, acknowledgements, Call.isAck]
        · simp [handleCallbackQuery, handleCallbackQueryTraced, h1, h2, h3, ChatState.Lock,
            ChatState.Unlock, hc, acknowledgements, Call.isAck]
      · by_cases hm : env.NormalizeAndCompare callback.MessageText word = true
        · simp [handleCallbackQuery, handleCallbackQueryTraced, h1, h2, h3, ChatState.Lock,
            ChatState.Unlock, ChatState.RLock, ChatState.RUnlock, hm, acknowledgements,
            Call.isAck]
        · simp [handleCallbackQuery, handleCallbackQueryTraced, h1, h2, h3, ChatState.Lock,
            ChatState.Unlock, ChatState.RLock, ChatState.RUnlock, hm, acknowledgements,
            Call.isAck]

/-- Instances of C9 (amended): alice claims the fresh session and draws "cat" (two
acknowledgements, the first carrying "cat"); alice, explaining "cat", gives up the
lead (one empty acknowledgement after the room message). -/
theorem callback_acknowledgements_witness :
    (∃ out, handleCallbackQuery (envWith (drawn "cat")) ⟨"q", "alice", "explain", "", 7⟩
        ChatState.fresh = some out ∧
      out.calls = out.calls.filter (fun c => !c.isAck) ++ acknowledgements out.calls ∧
      acknowledgements out.calls =
        [Call.AnswerCallbackQuery "q" out.state.Word true,
         Call.AnswerCallbackQuery "q" "" false] ∧
      out.state.Word = "cat") ∧
    (∃ out, handleCallbackQuery (envWith drawFailed) ⟨"r", "alice", "droplead", "", 7⟩
        ⟨false, "cat", "alice"⟩ = some out ∧
      out.calls = out.calls.filter (fun c => !c.isAck) ++ acknowledgements out.calls ∧
      acknowledgements out.calls = [Call.AnswerCallbackQuery "r" "" false]) := by
  constructor
  · obtain ⟨out, h1, h2, h3, h4⟩ :=
      callback_acknowledgements (envWith (drawn "cat")) ⟨"q", "alice", "explain", "", 7⟩
        ChatState.fresh rfl (by decide)
    refine ⟨out, h1, h2, ?_, ?_⟩
    · simpa [ChatState.fresh] using h3
    · exact (h4 (Or.inl rfl) (Or.inr rfl)).2 (by decide) rfl
  · obtain ⟨out, h1, h2, h3, _⟩ :=
      callback_acknowledgements (envWith drawFailed) ⟨"r", "alice", "droplead", "", 7⟩
        ⟨false, "cat", "alice"⟩ rfl (by decide)
    refine ⟨out, h1, h2, ?_⟩
    simpa using h3

/-! ## Confidentiality of the word -/

/-- C10: for any two words a successful draw may return, the "explain" action posts the
same messages into the room: at most the announcement of the explainer, whose text and
buttons do not mention the word. The drawn word itself is sent in the alert that
answers the caller. -/
theorem explain_room_messages_independent_of_word (env : Env) (callback : CallbackQuery)
    (s : ChatState) (w₁ w₂ : String)
    (hdata : callback.Data = "explain") (hfree : s.held = false) :
    ∃ out₁ out₂,
      handleCallbackQuery { env with GetRandomWord := drawn w₁ } callback s = some out₁ ∧
      handleCallbackQuery { env with GetRandomWord := drawn w₂ } callback s = some out₂ ∧
      roomMessages out₁.calls = roomMessages out₂.calls ∧
      (∀ c ∈ roomMessages out₁.calls,
        c = Call.SendMessageWithButtons callback.ChatID
          ("@" ++ callback.FromUserName ++ " is explaining the word:") leaderButtons) ∧
      (∀ c ∈ out₁.calls, c.isRoomMessage = true ∨ c.isAck = true) ∧
      (s.User = "" → Call.AnswerCallbackQuery callback.ID w₁ true ∈ out₁.calls) := by
  obtain ⟨held, word, user⟩ := s
  simp only at hfree
  subst hfree
  by_cases hc : user = callback.FromUserName
  · by_cases hu : callback.FromUserName = ""
    · simp [handleCallbackQuery, handleCallbackQueryTraced, hdata, ChatState.Lock, ChatState.Unlock, hc, hu, drawn,
        roomMessages, Call.isRoomMessage, Call.isAck]
    · simp [handleCallbackQuery, handleCallbackQueryTraced, hdata, ChatState.Lock, ChatState.Unlock, hc, hu, drawn,
        roomMessages, Call.isRoomMessage, Call.isAck]
  · by_cases hu : user = ""
    · simp [handleCallbackQuery, handleCallbackQueryTraced, hdata, ChatState.Lock, ChatState.Unlock, hu, drawn,
        roomMessages, Call.isRoomMessage, Call.isAck]
    · simp [handleCallbackQuery, handleCallbackQueryTraced, hdata, ChatState.Lock, ChatState.Unlock, hc, hu, drawn,
        roomMessages, Call.isRoomMessage, Call.isAck]

/-- Instance of C10: alice claims the fresh session, once drawing "cat" and once
"dog". -/
theorem explain_room_messages_independent_of_word_witness :
    ∃ out₁ out₂,
      handleCallbackQuery { envWith drawFailed with GetRandomWord := drawn "cat" }
        ⟨"q", "alice", "explain", "", 7⟩ ChatState.fresh = some out₁ ∧
      handleCallbackQuery { envWith drawFailed with GetRandomWord := drawn "dog" }
        ⟨"q", "alice", "explain", "", 7⟩ ChatState.fresh = some out₂ ∧
      roomMessages out₁.calls = roomMessages out₂.calls ∧
      (∀ c ∈ roomMessages out₁.calls,
        c = Call.SendMessageWithButtons 7
          ("@" ++ "alice" ++ " is explaining the word:") leaderButtons) ∧
      (∀ c ∈ out₁.calls, c.isRoomMessage = true ∨ c.isAck = true) ∧
      (ChatState.fresh.User = "" → Call.AnswerCallbackQuery "q" "cat" true ∈ out₁.calls) :=
  explain_room_messages_independent_of_word (envWith drawFailed)
    ⟨"q", "alice", "explain", "", 7⟩ ChatState.fresh "cat" "dog" rfl rfl

/-! ## The data-model invariant -/

/-- Support for C1: a handler that returns preserves "explainer set implies word set"
whenever the string returned by the word supply is non-empty. -/
theorem wordSetIfUserSet_step (env : Env) (update : Update) (s : ChatState) (out : Outcome)
    (hword : env.GetRandomWord.word ≠ "") (hinv : s.wordSetIfUserSet)
    (hrun : handleUpdate env update s = some out) : out.state.wordSetIfUserSet := by
  obtain ⟨held, word, user⟩ := s
  obtain ⟨message, callback⟩ := update
  simp only [ChatState.wordSetIfUserSet] at hinv ⊢
  cases held
  · cases message with
    | some message =>
      simp only [handleUpdate, handleMessage, ChatState.Lock, ChatState.RLock,
        ChatState.Unlock, ChatState.RUnlock, Bool.false_eq_true, if_false] at hrun
      split_ifs at hrun <;> simp_all <;> subst hrun <;> simp_all
    | none =>
      cases callback with
      | some callback =>
        simp only [handleUpdate, handleCallbackQuery, handleCallbackQueryTraced, ChatState.Lock, ChatState.RLock,
          ChatState.Unlock, ChatState.RUnlock, Bool.false_eq_true, if_false] at hrun
        split_ifs at hrun <;> simp_all <;> subst hrun <;> simp_all
      | none =>
        simp [handleUpdate] at hrun
        subst hrun
        exact hinv
  · cases message with
    | some message =>
      simp only [handleUpdate, handleMessage, ChatState.Lock, ChatState.RLock,
        ChatState.Unlock, ChatState.RUnlock, if_true] at hrun
      split_ifs at hrun <;> simp_all <;> subst hrun <;> simp_all
    | none =>
      cases callback with
      | some callback =>
        simp only [handleUpdate, handleCallbackQuery, handleCallbackQueryTraced,
          ChatState.Lock, ChatState.RLock, ChatState.Unlock, ChatState.RUnlock, if_true] at hrun
        split_ifs at hrun <;> simp at hrun
      | none =>
        simp [handleUpdate] at hrun
        subst hrun
        exact hinv

/-- Support for C1: from the fresh session, every sequence of updates whose handlers
return ends in a state where an explainer implies a word, provided every string the
word supply returned along the way was non-empty. -/
theorem wordSetIfUserSet_of_run (updates : List (Env × Update)) :
    ∀ (s final : ChatState), (∀ p ∈ updates, p.1.GetRandomWord.word ≠ "") →
      s.wordSetIfUserSet → runUpdates updates s = some final → final.wordSetIfUserSet := by
  induction updates with
  | nil =>
    intro s final _ hinv hrun
    simp [runUpdates] at hrun
    exact hrun ▸ hinv
  | cons p rest ih =>
    intro s final hall hinv hrun
    obtain ⟨env, update⟩ := p
    simp only [runUpdates] at hrun
    cases hstep : handleUpdate env update s with
    | none => simp [hstep] at hrun
    | some out =>
      simp only [hstep] at hrun
      have hword : env.GetRandomWord.word ≠ "" := hall (env, update) (List.mem_cons_self _ _)
      exact ih out.state final (fun q hq => hall q (List.mem_cons_of_mem _ hq))
        (wordSetIfUserSet_step env update s out hword hinv hstep) hrun

end Controller
